import Mathlib

/-!
# Verification of the Mobile Privacy Scanner telemetry client

Shallow embedding of the live-telemetry ingestion and aggregation client
implemented in `src/frontend/src/App.js` and in the unnamed source variant
`src/unnamed/part_000`.  The embedding covers:

* the `TrafficFlow` payload record and the `stats` aggregation object held in
  React component state (`useState` in `App`),
* the `websocket.onmessage` handler of both source variants, including the
  JavaScript evaluation order of its statements and the places where the
  handler would raise a `TypeError` (modelled as `none` results),
* the connection-lifecycle logic of `App.js` (`connectWebSocket`,
  `websocket.onclose`, the reconnect timer callback and the pause branch of
  `toggleListening`), modelled with JavaScript closure semantics:
  `connectWebSocket` is a `useCallback` closure, and its body, the handlers
  of each socket it creates, and the reconnect timer callback all read the
  `isListening` / `connectionAttempts` constants of the render that created
  that closure instance (a `Capture` below), never the current component
  state; only the functional updater `setConnectionAttempts(prev => prev + 1)`
  reads current state.  The aggregation handlers, by contrast, use only
  functional updaters and message data, so their effect is state-current.

Optional JavaScript fields (`undefined` values) are modelled with `Option`;
`x.slice(0, n)` on arrays is `List.take n`; JavaScript truthiness of the
optional string field `leakType` is `leakTruthy` below.
-/

/-- One observed network request, as carried in the `data` field of a
`new_traffic` message and in the `recentFlows` / `privacyLeaks` arrays.
`timestamp`, `leakType` and `leakDetail` are optional in the payloads the
handlers accept; the handlers only ever read `leakType`. -/
structure TrafficFlow where
  flowId : String
  timestamp : Option String
  method : String
  host : String
  url : String
  status : String
  leakType : Option String
  leakDetail : Option String
deriving DecidableEq, Repr

/-- JavaScript truthiness of the optional string field `newFlow.leakType`:
`undefined` and the empty string are falsy, every other string is truthy. -/
def leakTruthy : Option String → Bool
  | none => false
  | some s => s != ""

/-- The `stats` object of the component state (`useState` initialiser in both
variants), and equally the shape of a `stats_update` payload with numeric
counters.  `recentFlows` / `privacyLeaks` are `Option` because a snapshot
payload may omit them, in which case `setStats(message.data)` installs an
object in which the field is absent. -/
structure Stats where
  totalFlows : Nat
  totalLeaks : Nat
  recentFlows : Option (List TrafficFlow)
  privacyLeaks : Option (List TrafficFlow)
deriving DecidableEq, Repr

/-- The `useState` initial value of `stats` in both source variants:
`{ totalFlows: 0, totalLeaks: 0, recentFlows: [], privacyLeaks: [] }`. -/
def initialStats : Stats :=
  { totalFlows := 0, totalLeaks := 0, recentFlows := some [], privacyLeaks := some [] }

/-- The aggregation-relevant component state: the `stats` slot (which
`setStats(message.data)` can set to an absent value when `message.data` is
absent, hence `Option`) and the separate `allFlows` list. -/
structure AggSt where
  stats : Option Stats
  allFlows : List TrafficFlow
deriving DecidableEq, Repr

/-- Aggregation state at mount: `stats` at its initialiser, `allFlows = []`. -/
def initialAgg : AggSt :=
  { stats := some initialStats, allFlows := [] }

/-- The `setStats(prev => ...)` updater of the `new_traffic` branch
(App.js lines 74-81, part_000 lines 66-73):
spread `prev`, `totalFlows + 1`, conditional `totalLeaks + 1`, and
`[newFlow, ...prev.privacyLeaks].slice(0, 50)` when `leakType` is truthy.
Returns `none` when the updater would throw: spreading `prev.privacyLeaks`
while that field is absent is a `TypeError` in JavaScript. -/
def applyNewTrafficStats (newFlow : TrafficFlow) (prev : Stats) : Option Stats :=
  if leakTruthy newFlow.leakType then
    match prev.privacyLeaks with
    | none => none
    | some pl =>
        some { prev with
                 totalFlows := prev.totalFlows + 1
                 totalLeaks := prev.totalLeaks + 1
                 privacyLeaks := some ((newFlow :: pl).take 50) }
  else
    some { prev with totalFlows := prev.totalFlows + 1 }

/-- The `stats_update` branch installs the payload verbatim:
`setStats(message.data)` followed by
`setAllFlows(message.data.recentFlows || [])` (App.js lines 64-66,
part_000 lines 58-60).  There is no truncation and no merging with the
previous state. -/
def applySnapshotStats (d : Stats) (_prev : Stats) : Stats := d

/-- The `stats` value installed by `clearData` on a successful clear request
(App.js line 141):
`{ totalFlows: 0, totalLeaks: 0, recentFlows: [], privacyLeaks: [] }`. -/
def clearDataStats : Stats :=
  { totalFlows := 0, totalLeaks := 0, recentFlows := some [], privacyLeaks := some [] }

/-- Effect of one `new_traffic` message on the aggregation state
(App.js lines 67-81): `setAllFlows(prev => [newFlow, ...prev].slice(0, 100))`
together with the `setStats` updater.  `none` models the run in which a state
updater throws (absent `stats` object, or absent `privacyLeaks` with a truthy
`leakType`), crashing the render instead of producing a next state. -/
def applyNewTrafficApp (newFlow : TrafficFlow) (s : AggSt) : Option AggSt :=
  match s.stats with
  | none => none
  | some prev =>
      match applyNewTrafficStats newFlow prev with
      | none => none
      | some st =>
          some { stats := some st, allFlows := (newFlow :: s.allFlows).take 100 }

/-- Applies a list of `new_traffic` messages in arrival order. -/
def applyFlows (s : AggSt) : List TrafficFlow → Option AggSt
  | [] => some s
  | f :: rest =>
      match applyNewTrafficApp f s with
      | none => none
      | some s' => applyFlows s' rest

/-- The decoded shape of one inbound websocket message.
`unparseable` is a message on which `JSON.parse` throws; `unknown` is parsed
text whose `type` is neither `stats_update` nor `new_traffic` (or missing);
`statsUpdate none` is a `stats_update` message whose `data` field is absent. -/
inductive Msg where
  | unparseable
  | unknown
  | statsUpdate (data : Option Stats)
  | newTraffic (data : TrafficFlow)
deriving DecidableEq, Repr

/-- Result of processing one inbound message: the next aggregation state
(`none` when a state updater throws during render, killing the component)
and whether the handler's own `try/catch` caught an exception. -/
structure AggOutcome where
  next : Option AggSt
  caught : Bool
deriving DecidableEq, Repr

/-- Aggregation-level semantics of `websocket.onmessage` in
`src/frontend/src/App.js` (lines 58-91).  On `stats_update` with an absent
`data`, `setStats(message.data)` has already been issued when reading
`message.data.recentFlows` throws, so the absent value is installed and the
error is caught by the handler while `allFlows` is left unchanged. -/
def appAggStep (m : Msg) (s : AggSt) : AggOutcome :=
  match m with
  | .unparseable => { next := some s, caught := true }
  | .unknown => { next := some s, caught := false }
  | .statsUpdate none =>
      { next := some { stats := none, allFlows := s.allFlows }, caught := true }
  | .statsUpdate (some d) =>
      { next := some { stats := some d, allFlows := d.recentFlows.getD [] }
        caught := false }
  | .newTraffic f =>
      match applyNewTrafficApp f s with
      | none => { next := none, caught := false }
      | some s' => { next := some s', caught := false }

/-- Aggregation-level semantics of `websocket.onmessage` in
`src/unnamed/part_000` (lines 53-78), transcribed independently from that
variant: same `stats_update` install (lines 58-60) and same `new_traffic`
updaters (lines 61-73), written out inline. -/
def partAggStep (m : Msg) (s : AggSt) : AggOutcome :=
  match m with
  | .unparseable => { next := some s, caught := true }
  | .unknown => { next := some s, caught := false }
  | .statsUpdate none =>
      { next := some { stats := none, allFlows := s.allFlows }, caught := true }
  | .statsUpdate (some d) =>
      { next := some { stats := some d, allFlows := d.recentFlows.getD [] }
        caught := false }
  | .newTraffic newFlow =>
      match s.stats with
      | none => { next := none, caught := false }
      | some prev =>
          if leakTruthy newFlow.leakType then
            match prev.privacyLeaks with
            | none => { next := none, caught := false }
            | some pl =>
                { next := some
                    { stats := some
                        { prev with
                            totalFlows := prev.totalFlows + 1
                            totalLeaks := prev.totalLeaks + 1
                            privacyLeaks := some ((newFlow :: pl).take 50) }
                      allFlows := (newFlow :: s.allFlows).take 100 }
                  caught := false }
          else
            { next := some
                { stats := some { prev with totalFlows := prev.totalFlows + 1 }
                  allFlows := (newFlow :: s.allFlows).take 100 }
              caught := false }

/-- The connection-related `useState` slots of `App.js` bundled as a
record; it is carried inside the full component state to express that the
message handler leaves connection state untouched.  `wsOpen` and
`pendingTimers` summarize the socket-handle and reconnect-timer resources
alongside the three state slots. -/
structure ConnSt where
  isConnected : Bool
  isListening : Bool
  connectionAttempts : Nat
  wsOpen : Bool
  pendingTimers : Nat
deriving DecidableEq, Repr

/-- Component-mount values of the connection slots:
`isConnected = false`, `isListening = true`, `connectionAttempts = 0`,
no socket, no pending timer. -/
def initialConn : ConnSt :=
  { isConnected := false, isListening := true, connectionAttempts := 0
    wsOpen := false, pendingTimers := 0 }

/-- A render snapshot as captured by the closures of `App.js`: the
`isListening` and `connectionAttempts` constants of the render that created
a `connectWebSocket` instance (its `useCallback` dependencies).  The
`onopen`/`onclose` handlers of a socket created by that instance and the
reconnect `setTimeout` callback scheduled from its `onclose` close over the
same render-scope constants, so a socket and its timer carry the same
capture; captured values are never refreshed after creation. -/
structure Capture where
  isListening : Bool
  connectionAttempts : Nat
deriving DecidableEq, Repr

/-- Runtime state of the connection machinery of `App.js` under closure
semantics: the `useState` slots (`ws` records the capture of the socket
the handle points to), the live sockets (the code closes a superseded
socket neither on reconnect nor in `onclose`, so several can be live at
once), the sockets closed locally by `ws.close()` whose `onclose` has not
fired yet, and the pending reconnect timers, each recorded by the capture
of the `connectWebSocket` instance it will invoke. -/
structure RSt where
  isConnected : Bool
  isListening : Bool
  connectionAttempts : Nat
  ws : Option Capture
  liveSockets : List Capture
  closingSockets : List Capture
  pendingTimers : List Capture
deriving DecidableEq, Repr

/-- Runtime connection state at mount, before the mount effect runs. -/
def rinit : RSt :=
  { isConnected := false, isListening := true, connectionAttempts := 0
    ws := none, liveSockets := [], closingSockets := [], pendingTimers := [] }

/-- Running a `connectWebSocket` closure instance whose captured render
snapshot is `c` (App.js lines 43-118): `if (!isListening) return;` tests
the captured `isListening`, not the current state; otherwise
`new WebSocket(...)` creates a socket whose handlers capture the same
snapshot `c`, and `setWs` stores the handle.  The superseded socket, if
any, is not closed. -/
def connectInstance (c : Capture) (s : RSt) : RSt :=
  if c.isListening then
    { s with liveSockets := c :: s.liveSockets, ws := some c }
  else s

/-- The body of `websocket.onclose` (App.js lines 93-106) for a socket
whose handlers captured `c`: `setIsConnected(false)`, then a reconnect
`setTimeout` is scheduled exactly when the captured `isListening` is true
and the captured `connectionAttempts` is below 5; the scheduled callback
closes over the same render scope and so will invoke the
`connectWebSocket` instance with the same capture `c`. -/
def oncloseBody (c : Capture) (s : RSt) : RSt :=
  let s1 := { s with isConnected := false }
  if c.isListening ∧ c.connectionAttempts < 5 then
    { s1 with pendingTimers := c :: s1.pendingTimers }
  else s1

/-- The pause branch of `toggleListening` (App.js lines 120-133), taken
while listening: `ws.close()` (the closed socket's `onclose` fires later as
its own event), `setWs(null)`, `setIsConnected(false)`, and listening
becomes false.  Nothing else happens: `connectionAttempts` is not reset
and no `clearTimeout` exists anywhere in the program. -/
def pauseToggle (s : RSt) : RSt :=
  match s.ws with
  | none => { s with isListening := false }
  | some c =>
      { s with isListening := false, ws := none, isConnected := false
               liveSockets := s.liveSockets.erase c
               closingSockets := c :: s.closingSockets }

/-- Connection events under closure semantics: transport failure of a live
socket (its `onclose` fires), the deferred `onclose` of a locally closed
socket firing, a live socket's `onopen` firing, a pending reconnect timer
firing, and the user pressing pause while listening.  The resume branch
and the mount effect's re-runs are omitted: they only create additional
connection attempts and none of the stated properties needs them. -/
inductive REvent where
  | fail (c : Capture)
  | closeFired (c : Capture)
  | opened (c : Capture)
  | timer (c : Capture)
  | pauseBtn
deriving DecidableEq, Repr

/-- One runtime step.  Each callback is guarded by the existence of its
trigger (a matching live or closing socket, a matching pending timer).
The timer callback (App.js lines 101-104) runs
`setConnectionAttempts(prev => prev + 1)` — a functional updater, hence on
the current counter — and then invokes the `connectWebSocket` instance it
captured; `onopen` resets the current counter with
`setConnectionAttempts(0)`; all other reads use captured values. -/
def rstep (s : RSt) (e : REvent) : RSt :=
  match e with
  | .fail c =>
      if c ∈ s.liveSockets then
        oncloseBody c { s with liveSockets := s.liveSockets.erase c }
      else s
  | .closeFired c =>
      if c ∈ s.closingSockets then
        oncloseBody c { s with closingSockets := s.closingSockets.erase c }
      else s
  | .opened c =>
      if c ∈ s.liveSockets then
        { s with isConnected := true, connectionAttempts := 0 }
      else s
  | .timer c =>
      if c ∈ s.pendingTimers then
        connectInstance c
          { s with pendingTimers := s.pendingTimers.erase c
                   connectionAttempts := s.connectionAttempts + 1 }
      else s
  | .pauseBtn => if s.isListening then pauseToggle s else s

/-- Runs a sequence of runtime events. -/
def rrun (s : RSt) (es : List REvent) : RSt := es.foldl rstep s

/-- Runtime state after the mount effect's `connectWebSocket()` call: the
instance current at mount captured `isListening = true`,
`connectionAttempts = 0`. -/
def rboot : RSt := connectInstance ⟨true, 0⟩ rinit

/-- The trace in which the initial connection attempt and the five
timer-driven reconnect attempts all fail consecutively while the user
keeps listening.  Every socket in this chain is created by the
`connectWebSocket` instance captured at mount, so every `onclose` and
every timer in the chain carries the capture `⟨true, 0⟩` however large the
current `connectionAttempts` counter has grown. -/
def staleFailTrace : List REvent :=
  [.fail ⟨true, 0⟩, .timer ⟨true, 0⟩, .fail ⟨true, 0⟩, .timer ⟨true, 0⟩,
   .fail ⟨true, 0⟩, .timer ⟨true, 0⟩, .fail ⟨true, 0⟩, .timer ⟨true, 0⟩,
   .fail ⟨true, 0⟩, .timer ⟨true, 0⟩, .fail ⟨true, 0⟩]

/-- A connected, listening runtime state: three failed attempts recorded,
a live socket created by the instance that captured `⟨true, 2⟩`, and one
pending reconnect timer that captured `⟨true, 0⟩`. -/
def pausedScenario : RSt :=
  { isConnected := true, isListening := true, connectionAttempts := 3
    ws := some ⟨true, 2⟩, liveSockets := [⟨true, 2⟩], closingSockets := []
    pendingTimers := [⟨true, 0⟩] }

/-- Full component state of `App.js` as far as the message handler and the
connection manager observe it: connection slots, aggregation slots, and the
`lastUpdate` timestamp (modelled as an abstract `Nat` clock value). -/
structure FullState where
  conn : ConnSt
  agg : AggSt
  lastUpdate : Option Nat
deriving DecidableEq, Repr

/-- Component state at mount. -/
def initialFull : FullState :=
  { conn := initialConn, agg := initialAgg, lastUpdate := none }

/-- Outcome of one `onmessage` invocation on the full component state. -/
structure FullOutcome where
  next : Option FullState
  caught : Bool
deriving DecidableEq, Repr

/-- `websocket.onmessage` of `App.js` (lines 58-91) on the full component
state at clock value `now`: an unparseable message is caught by the
handler's `try/catch` before `setLastUpdate(new Date())` runs; every parsed
message updates `lastUpdate` and then takes the aggregation-level branch.
The handler never touches the connection slots. -/
def appOnMessage (now : Nat) (m : Msg) (s : FullState) : FullOutcome :=
  match m with
  | .unparseable => { next := some s, caught := true }
  | _ =>
      let o := appAggStep m s.agg
      { next := o.next.map fun a =>
          { s with agg := a, lastUpdate := some now }
        caught := o.caught }

/-- A concrete flow payload used to instantiate theorems on sample inputs. -/
def sampleFlow (i : Nat) (lk : Option String) : TrafficFlow :=
  { flowId := toString i, timestamp := none, method := "GET", host := "example.com"
    url := "/x", status := "200", leakType := lk, leakDetail := none }

/-- A `stats_update` payload whose `recentFlows` holds 101 entries, one more
than the 100-entry cap. -/
def oversizedSnapshot : Stats :=
  { totalFlows := 101, totalLeaks := 0
    recentFlows := some (List.replicate 101 (sampleFlow 0 none))
    privacyLeaks := some [] }

/-- A `stats_update` payload with numeric counters and both sequence fields
missing. -/
def missingListsSnapshot : Stats :=
  { totalFlows := 7, totalLeaks := 0, recentFlows := none, privacyLeaks := none }

/-- A `stats_update` payload whose counters violate
`totalLeaks ≤ totalFlows`. -/
def badCountersSnapshot : Stats :=
  { totalFlows := 0, totalLeaks := 5, recentFlows := some [], privacyLeaks := some [] }

/-- The cap invariants of the aggregation state, together with the fact that
the list-valued `stats` fields are present (so the `new_traffic` updaters
cannot throw): `allFlows` holds at most 100 entries, `recentFlows` and
`privacyLeaks` are present with at most 100 and 50 entries. -/
def CapsOK (s : AggSt) : Prop :=
  s.allFlows.length ≤ 100 ∧
  ∃ st, s.stats = some st ∧
    (∃ rl, st.recentFlows = some rl ∧ rl.length ≤ 100) ∧
    (∃ pl, st.privacyLeaks = some pl ∧ pl.length ≤ 50)

theorem initialAgg_capsOK : CapsOK initialAgg :=
  ⟨by simp [initialAgg], initialStats, rfl, ⟨[], rfl, by simp⟩, ⟨[], rfl, by simp⟩⟩

/-- One `new_traffic` message applied to a state within caps succeeds and
stays within caps. -/
theorem applyNewTrafficApp_capsOK (f : TrafficFlow) {s : AggSt} (h : CapsOK s) :
    ∃ s', applyNewTrafficApp f s = some s' ∧ CapsOK s' := by
  obtain ⟨hall, st, hst, ⟨rl, hrl, hrlen⟩, ⟨pl, hpl, hplen⟩⟩ := h
  cases hlk : leakTruthy f.leakType with
  | false =>
      refine ⟨⟨some { st with totalFlows := st.totalFlows + 1 },
               (f :: s.allFlows).take 100⟩, ?_, ?_, ?_⟩
      · simp [applyNewTrafficApp, applyNewTrafficStats, hst, hlk]
      · simp [List.length_take]
      · exact ⟨_, rfl, ⟨rl, hrl, hrlen⟩, ⟨pl, hpl, hplen⟩⟩
  | true =>
      refine ⟨⟨some { st with totalFlows := st.totalFlows + 1
                              totalLeaks := st.totalLeaks + 1
                              privacyLeaks := some ((f :: pl).take 50) },
               (f :: s.allFlows).take 100⟩, ?_, ?_, ?_⟩
      · simp [applyNewTrafficApp, applyNewTrafficStats, hst, hlk, hpl]
      · simp [List.length_take]
      · exact ⟨_, rfl, ⟨rl, hrl, hrlen⟩, ⟨_, rfl, by simp [List.length_take]⟩⟩

/-- Any sequence of `new_traffic` messages applied to a state within caps
succeeds and ends within caps. -/
theorem applyFlows_capsOK (fs : List TrafficFlow) :
    ∀ s : AggSt, CapsOK s → ∃ s', applyFlows s fs = some s' ∧ CapsOK s' := by
  induction fs with
  | nil => exact fun s h => ⟨s, rfl, h⟩
  | cons f rest ih =>
      intro s h
      obtain ⟨s1, hs1, hc1⟩ := applyNewTrafficApp_capsOK f h
      obtain ⟨s2, hs2, hc2⟩ := ih s1 hc1
      exact ⟨s2, by simp [applyFlows, hs1, hs2], hc2⟩

/-- C1: for every sequence of incremental (`new_traffic`) events applied
from the empty state, after each event the recent-flows list (`allFlows`,
and equally the `recentFlows` field of `stats`) has length at most 100 and
the privacy-leaks list has length at most 50.  Quantifying over all event
sequences covers the state after each event of any longer sequence. -/
theorem incremental_caps_invariant (fs : List TrafficFlow) :
    ∃ s, applyFlows initialAgg fs = some s ∧
      s.allFlows.length ≤ 100 ∧
      ∃ st, s.stats = some st ∧
        (∃ rl, st.recentFlows = some rl ∧ rl.length ≤ 100) ∧
        (∃ pl, st.privacyLeaks = some pl ∧ pl.length ≤ 50) :=
  applyFlows_capsOK fs initialAgg initialAgg_capsOK

/-- Counter bookkeeping of a run of `new_traffic` messages: starting from
any state whose `stats` object is present with its `privacyLeaks` field
present, the run succeeds, `totalFlows` grows by the number of events and
`totalLeaks` by the number of events whose `leakType` is present (events
are assumed well formed: a present `leakType` is a non-empty tag). -/
theorem applyFlows_counts (fs : List TrafficFlow) :
    ∀ (s : AggSt) (st : Stats) (pl : List TrafficFlow),
      s.stats = some st → st.privacyLeaks = some pl →
      (∀ f ∈ fs, f.leakType ≠ some "") →
      ∃ s' st', applyFlows s fs = some s' ∧ s'.stats = some st' ∧
        st'.totalFlows = st.totalFlows + fs.length ∧
        st'.totalLeaks = st.totalLeaks + (fs.filter fun f => f.leakType.isSome).length := by
  induction fs with
  | nil => exact fun s st pl hst _ _ => ⟨s, st, rfl, hst, by simp, by simp⟩
  | cons f rest ih =>
      intro s st pl hst hpl hwf
      cases hlk : f.leakType with
      | none =>
          obtain ⟨s', st', h1, h2, h3, h4⟩ :=
            ih ⟨some { st with totalFlows := st.totalFlows + 1 }, (f :: s.allFlows).take 100⟩
              { st with totalFlows := st.totalFlows + 1 } pl rfl hpl
              (fun g hg => hwf g (List.mem_cons_of_mem f hg))
          refine ⟨s', st', ?_, h2, ?_, ?_⟩
          · simpa [applyFlows, applyNewTrafficApp, applyNewTrafficStats, hst,
              leakTruthy, hlk] using h1
          · simp only [h3]; simp [List.length_cons]; omega
          · simp only [h4]; simp [List.filter, hlk, Option.isSome]
      | some v =>
          have hv : v ≠ "" := by
            intro hv0
            exact hwf f (List.mem_cons_self f rest) (by rw [hlk, hv0])
          have htr : leakTruthy f.leakType = true := by
            simp [leakTruthy, hlk, hv]
          obtain ⟨s', st', h1, h2, h3, h4⟩ :=
            ih ⟨some { st with totalFlows := st.totalFlows + 1
                               totalLeaks := st.totalLeaks + 1
                               privacyLeaks := some ((f :: pl).take 50) },
                (f :: s.allFlows).take 100⟩
              { st with totalFlows := st.totalFlows + 1
                        totalLeaks := st.totalLeaks + 1
                        privacyLeaks := some ((f :: pl).take 50) }
              ((f :: pl).take 50) rfl rfl
              (fun g hg => hwf g (List.mem_cons_of_mem f hg))
          refine ⟨s', st', ?_, h2, ?_, ?_⟩
          · simpa [applyFlows, applyNewTrafficApp, applyNewTrafficStats, hst,
              htr, hpl] using h1
          · simp only [h3]; simp [List.length_cons]; omega
          · simp only [h4]; simp [List.filter, hlk, Option.isSome]; omega

/-- C2: for every sequence of N incremental (`new_traffic`) events, K of
which carry a `leakType` (a present `leakType` being a non-empty tag, as
the data model's enum values are), applying them from the empty state
yields `totalFlows = N` and `totalLeaks = K`. -/
theorem incremental_totals (fs : List TrafficFlow)
    (hwf : ∀ f ∈ fs, f.leakType ≠ some "") :
    ∃ s st, applyFlows initialAgg fs = some s ∧ s.stats = some st ∧
      st.totalFlows = fs.length ∧
      st.totalLeaks = (fs.filter fun f => f.leakType.isSome).length := by
  obtain ⟨s, st, h1, h2, h3, h4⟩ :=
    applyFlows_counts fs initialAgg initialStats [] rfl rfl hwf
  exact ⟨s, st, h1, h2, by simpa [initialStats] using h3,
    by simpa [initialStats] using h4⟩

/-- C2 witness: two events, the second carrying `GPS_DATA`, give
`totalFlows = 2` and `totalLeaks = 1`. -/
theorem incremental_totals_witness :
    ∃ s st,
      applyFlows initialAgg [sampleFlow 1 none, sampleFlow 2 (some "GPS_DATA")] = some s ∧
      s.stats = some st ∧ st.totalFlows = 2 ∧ st.totalLeaks = 1 := by
  obtain ⟨s, st, h1, h2, h3, h4⟩ :=
    incremental_totals [sampleFlow 1 none, sampleFlow 2 (some "GPS_DATA")] (by decide)
  refine ⟨s, st, h1, h2, by simpa using h3, ?_⟩
  rw [h4]; decide

/-- C3: three incremental events from the empty state, only the second
carrying a `leakType` (the scenario's `GPS_DATA`), give `totalFlows = 3`,
`totalLeaks = 1`, the flows list ordered third-second-first, and the
privacy-leaks list holding exactly the second event.  (`allFlows` is the
arrival-ordered flows list; the `recentFlows` field of `stats` is only
written by snapshots and stays empty here.) -/
theorem three_event_scenario (f1 f2 f3 : TrafficFlow)
    (h1 : f1.leakType = none) (h2 : f2.leakType = some "GPS_DATA")
    (h3 : f3.leakType = none) :
    applyFlows initialAgg [f1, f2, f3] =
      some { stats := some { totalFlows := 3, totalLeaks := 1
                             recentFlows := some [], privacyLeaks := some [f2] }
             allFlows := [f3, f2, f1] } := by
  simp [applyFlows, applyNewTrafficApp, applyNewTrafficStats, leakTruthy,
    h1, h2, h3, initialAgg, initialStats]

/-- C3 witness: the scenario evaluated on concrete sample flows. -/
theorem three_event_scenario_witness :
    applyFlows initialAgg
        [sampleFlow 1 none, sampleFlow 2 (some "GPS_DATA"), sampleFlow 3 none] =
      some { stats := some { totalFlows := 3, totalLeaks := 1
                             recentFlows := some []
                             privacyLeaks := some [sampleFlow 2 (some "GPS_DATA")] }
             allFlows := [sampleFlow 3 none, sampleFlow 2 (some "GPS_DATA"),
                          sampleFlow 1 none] } :=
  three_event_scenario _ _ _ rfl rfl rfl

/-- C4 counterexample: a `stats_update` payload whose `recentFlows` holds
101 entries is installed with all 101 entries; nothing truncates it to the
first 100, so the cap invariant is not enforced on snapshots. -/
theorem snapshot_not_truncated :
    (appAggStep (Msg.statsUpdate (some oversizedSnapshot)) initialAgg).next =
      some { stats := some oversizedSnapshot
             allFlows := List.replicate 101 (sampleFlow 0 none) } ∧
    (List.replicate 101 (sampleFlow 0 none)).length = 101 ∧ ¬(101 ≤ 100) :=
  ⟨rfl, by simp, by omega⟩

/-- C4 amended: applying a `stats_update` snapshot fully replaces the prior
aggregation state with the payload, independent of the previous state (no
merge); the payload is installed verbatim with no cap truncation, and
`allFlows` becomes the payload's `recentFlows` (or empty when missing). -/
theorem snapshot_full_replace (d : Stats) (s s' : AggSt) :
    appAggStep (Msg.statsUpdate (some d)) s =
      { next := some { stats := some d, allFlows := d.recentFlows.getD [] }
        caught := false } ∧
    appAggStep (Msg.statsUpdate (some d)) s = appAggStep (Msg.statsUpdate (some d)) s' :=
  ⟨rfl, rfl⟩

/-- C5 counterexample: the snapshot `{totalFlows: 7, totalLeaks: 0}` with
both sequence fields missing is accepted, but the missing fields are not
installed as empty sequences: the installed `privacyLeaks` is the absent
value, and a subsequent leak-carrying incremental event therefore fails
(the updater throws on spreading it), which an installed empty sequence
would have allowed. -/
theorem snapshot_missing_fields_not_empty :
    ((appAggStep (Msg.statsUpdate (some missingListsSnapshot)) initialAgg).next.bind
        AggSt.stats).map Stats.privacyLeaks = some none ∧
    some (none : Option (List TrafficFlow)) ≠ some (some []) ∧
    applyNewTrafficStats (sampleFlow 9 (some "GPS_DATA")) missingListsSnapshot = none ∧
    applyNewTrafficStats (sampleFlow 9 (some "GPS_DATA"))
        { missingListsSnapshot with privacyLeaks := some [] } ≠ none := by
  decide

/-- C5 amended: a `stats_update` payload with numeric counters but missing
sequence fields is accepted rather than rejected: the payload is installed
verbatim as the new `stats` and the missing `recentFlows` defaults to the
empty list in the separate `allFlows` list; within the installed `stats`
the missing sequence fields remain absent values, not empty sequences. -/
theorem snapshot_missing_fields_accepted (d : Stats) (s : AggSt)
    (hr : d.recentFlows = none) :
    (appAggStep (Msg.statsUpdate (some d)) s).next =
      some { stats := some d, allFlows := [] } ∧
    (appAggStep (Msg.statsUpdate (some d)) s).caught = false := by
  simp [appAggStep, hr]

/-- C5 witness: the amended statement at the concrete missing-fields
snapshot. -/
theorem snapshot_missing_fields_accepted_witness :
    (appAggStep (Msg.statsUpdate (some missingListsSnapshot)) initialAgg).next =
      some { stats := some missingListsSnapshot, allFlows := [] } ∧
    (appAggStep (Msg.statsUpdate (some missingListsSnapshot)) initialAgg).caught = false :=
  snapshot_missing_fields_accepted missingListsSnapshot initialAgg rfl

/-- C6 counterexample: from the empty state, which satisfies
`totalLeaks ≤ totalFlows`, applying the snapshot
`{totalFlows: 0, totalLeaks: 5, ...}` installs the payload verbatim and
yields a state violating the invariant, so the invariant is not preserved
by every mutating operation. -/
theorem leak_invariant_not_preserved :
    initialStats.totalLeaks ≤ initialStats.totalFlows ∧
    applySnapshotStats badCountersSnapshot initialStats = badCountersSnapshot ∧
    ¬((applySnapshotStats badCountersSnapshot initialStats).totalLeaks ≤
        (applySnapshotStats badCountersSnapshot initialStats).totalFlows) := by
  decide

/-- C6 amended: `totalLeaks ≤ totalFlows` is preserved by incremental
application and by clearing; a snapshot installs its payload verbatim, so
the state after a snapshot satisfies the invariant exactly when the payload
itself does. -/
theorem leak_invariant_amended :
    (∀ (st : Stats) (f : TrafficFlow) (st' : Stats),
      st.totalLeaks ≤ st.totalFlows → applyNewTrafficStats f st = some st' →
      st'.totalLeaks ≤ st'.totalFlows) ∧
    (∀ d st : Stats, d.totalLeaks ≤ d.totalFlows →
      (applySnapshotStats d st).totalLeaks ≤ (applySnapshotStats d st).totalFlows) ∧
    clearDataStats.totalLeaks ≤ clearDataStats.totalFlows := by
  refine ⟨?_, fun d st h => h, by simp [clearDataStats]⟩
  intro st f st' hinv happ
  cases hlk : leakTruthy f.leakType with
  | false =>
      simp [applyNewTrafficStats, hlk] at happ
      subst happ
      simpa using Nat.le_succ_of_le hinv
  | true =>
      cases hpl : st.privacyLeaks with
      | none => simp [applyNewTrafficStats, hlk, hpl] at happ
      | some pl =>
          simp [applyNewTrafficStats, hlk, hpl] at happ
          subst happ
          simpa using Nat.succ_le_succ hinv

/-- C6 witness: the incremental conjunct applied to the empty state and a
leak-free flow. -/
theorem leak_invariant_amended_witness :
    ({ totalFlows := 1, totalLeaks := 0, recentFlows := some []
       privacyLeaks := some [] } : Stats).totalLeaks ≤
      ({ totalFlows := 1, totalLeaks := 0, recentFlows := some []
         privacyLeaks := some [] } : Stats).totalFlows :=
  leak_invariant_amended.1 initialStats (sampleFlow 1 none) _ (by decide) (by decide)

/-- C7 counterexample: the inbound message `{"type": "stats_update"}` whose
`data` field is absent is an invalid event payload (the spec requires
numeric counters), yet it is not discarded without mutation:
`setStats(message.data)` has already installed the absent value by the time
reading `message.data.recentFlows` throws, so the aggregation state is
mutated even though the error is caught. -/
theorem invalid_payload_mutates :
    (appOnMessage 0 (Msg.statsUpdate none) initialFull).caught = true ∧
    (appOnMessage 0 (Msg.statsUpdate none) initialFull).next =
      some { conn := initialConn, agg := { stats := none, allFlows := [] }
             lastUpdate := some 0 } ∧
    ({ stats := none, allFlows := [] } : AggSt) ≠ initialFull.agg := by
  decide

/-- C7 amended: an unparseable message is discarded with no change at all
to the component state and its parse failure is caught by the handler (the
connection is neither crashed nor closed); a parsed message with an unknown
or missing discriminator leaves the aggregation state and the connection
state unchanged (only `lastUpdate` is written) and raises nothing; messages
with a known discriminator, however, are applied without any payload
validation. -/
theorem decode_failure_no_mutation (now : Nat) (s : FullState) :
    appOnMessage now Msg.unparseable s = { next := some s, caught := true } ∧
    appOnMessage now Msg.unknown s =
      { next := some { s with lastUpdate := some now }, caught := false } ∧
    ({ s with lastUpdate := some now } : FullState).agg = s.agg ∧
    ({ s with lastUpdate := some now } : FullState).conn = s.conn :=
  ⟨rfl, rfl, rfl, rfl⟩

/-- C10: the two source variants apply decoded events identically: for
every `stats_update` payload (present or absent), every `new_traffic` flow,
and every current aggregation state, the `onmessage` handler of
`src/frontend/src/App.js` and the handler of `src/unnamed/part_000`
produce the same next aggregation state and the same outcome flags. -/
theorem handlers_extensionally_equal (d : Option Stats) (f : TrafficFlow) (s : AggSt) :
    appAggStep (Msg.statsUpdate d) s = partAggStep (Msg.statsUpdate d) s ∧
    appAggStep (Msg.newTraffic f) s = partAggStep (Msg.newTraffic f) s := by
  constructor
  · cases d <;> rfl
  · cases hs : s.stats with
    | none => simp [appAggStep, partAggStep, applyNewTrafficApp, hs]
    | some prev =>
        cases hlk : leakTruthy f.leakType with
        | false =>
            simp [appAggStep, partAggStep, applyNewTrafficApp,
              applyNewTrafficStats, hs, hlk]
        | true =>
            cases hpl : prev.privacyLeaks with
            | none =>
                simp [appAggStep, partAggStep, applyNewTrafficApp,
                  applyNewTrafficStats, hs, hlk, hpl]
            | some pl =>
                simp [appAggStep, partAggStep, applyNewTrafficApp,
                  applyNewTrafficStats, hs, hlk, hpl]


/-- C8: refuted by the code.  The 5-attempt stop is the program's clear
intent (the `connectionAttempts < 5` guard, the `(attempt X/5)` log line
and the `/5` indicator in the header), but stale closures defeat it: every
socket in the timer-driven reconnect chain is created by the mount-render
`connectWebSocket` instance, so its `onclose` compares that instance's
captured `connectionAttempts = 0` — not the current counter — against 5.
After the initial attempt and five reconnect attempts all fail
consecutively while listening, the current counter reads 5 yet a further
reconnect timer is pending, and its firing opens a sixth automatic
reconnect attempt. -/
theorem sixth_reconnect_scheduled :
    (rrun rboot staleFailTrace).connectionAttempts = 5 ∧
    (rrun rboot staleFailTrace).isListening = true ∧
    (rrun rboot staleFailTrace).pendingTimers = [⟨true, 0⟩] ∧
    (rstep (rrun rboot staleFailTrace) (REvent.timer ⟨true, 0⟩)).liveSockets =
      [⟨true, 0⟩] ∧
    (rstep (rrun rboot staleFailTrace)
      (REvent.timer ⟨true, 0⟩)).connectionAttempts = 6 := by
  decide

/-- C9 counterexample: pausing the connected, listening state with three
recorded attempts and one pending reconnect timer suspends the client and
closes the socket, but leaves the retry counter at 3 (not reset to 0) and
the timer pending (not cancelled); when that timer then fires, the
`connectWebSocket` instance it captured (captured `isListening = true`)
opens a new socket although the client is still suspended — an automatic
reconnect attempt fires while suspended. -/
theorem pause_leaves_retry_state :
    (rstep pausedScenario REvent.pauseBtn).isListening = false ∧
    (rstep pausedScenario REvent.pauseBtn).connectionAttempts = 3 ∧
    (rstep pausedScenario REvent.pauseBtn).pendingTimers = [⟨true, 0⟩] ∧
    (rstep (rstep pausedScenario REvent.pauseBtn)
      (REvent.timer ⟨true, 0⟩)).isListening = false ∧
    (rstep (rstep pausedScenario REvent.pauseBtn)
      (REvent.timer ⟨true, 0⟩)).liveSockets = [⟨true, 0⟩] := by
  decide

/-- C9 amended: on explicit user pause while listening with a live or
in-flight connection, the connection is closed immediately (its `onclose`
fires later as its own event) and the state becomes disconnected and
suspended; the retry counter keeps its value and pending reconnect timers
are not cancelled; moreover a pending reconnect timer that fires while the
client is suspended invokes the `connectWebSocket` instance it captured,
and whenever that instance's captured listening snapshot is true it opens
a new socket: automatic reconnect attempts can still fire while
suspended. -/
theorem pause_amended (s : RSt) (c : Capture)
    (h : s.isListening = true) (hw : s.ws = some c) :
    (rstep s REvent.pauseBtn).isListening = false ∧
    (rstep s REvent.pauseBtn).isConnected = false ∧
    (rstep s REvent.pauseBtn).ws = none ∧
    (rstep s REvent.pauseBtn).connectionAttempts = s.connectionAttempts ∧
    (rstep s REvent.pauseBtn).pendingTimers = s.pendingTimers ∧
    (rstep s REvent.pauseBtn).closingSockets = c :: s.closingSockets ∧
    ∀ (s' : RSt) (c' : Capture), s'.isListening = false →
      c'.isListening = true → c' ∈ s'.pendingTimers →
      (rstep s' (REvent.timer c')).isListening = false ∧
      c' ∈ (rstep s' (REvent.timer c')).liveSockets ∧
      (rstep s' (REvent.timer c')).ws = some c' := by
  have hp : rstep s REvent.pauseBtn =
      { s with isListening := false, ws := none, isConnected := false
               liveSockets := s.liveSockets.erase c
               closingSockets := c :: s.closingSockets } := by
    simp [rstep, h, pauseToggle, hw]
  refine ⟨by rw [hp], by rw [hp], by rw [hp], by rw [hp], by rw [hp],
    by rw [hp], ?_⟩
  intro s' c' hl hc hmem
  have ht : rstep s' (REvent.timer c') =
      { s' with pendingTimers := s'.pendingTimers.erase c'
                connectionAttempts := s'.connectionAttempts + 1
                liveSockets := c' :: s'.liveSockets
                ws := some c' } := by
    simp [rstep, hmem, connectInstance, hc]
  rw [ht]
  exact ⟨hl, List.mem_cons_self _ _, rfl⟩

/-- C9 witness: the amended statement at the concrete paused scenario: the
counter and the pending timer survive the pause, and the surviving timer
then opens a socket while the client is suspended. -/
theorem pause_amended_witness :
    (rstep pausedScenario REvent.pauseBtn).connectionAttempts =
      pausedScenario.connectionAttempts ∧
    (rstep pausedScenario REvent.pauseBtn).pendingTimers =
      pausedScenario.pendingTimers ∧
    (⟨true, 0⟩ : Capture) ∈
      (rstep (rstep pausedScenario REvent.pauseBtn)
        (REvent.timer ⟨true, 0⟩)).liveSockets :=
  ⟨(pause_amended pausedScenario ⟨true, 2⟩ rfl rfl).2.2.2.1,
   (pause_amended pausedScenario ⟨true, 2⟩ rfl rfl).2.2.2.2.1,
   ((pause_amended pausedScenario ⟨true, 2⟩ rfl rfl).2.2.2.2.2.2
      (rstep pausedScenario REvent.pauseBtn) ⟨true, 0⟩ (by decide) rfl
      (by decide)).2.1⟩
